import Mathlib

/-!
Shallow embedding of the EmoRadar intervention engine
(src/intervention_engine.py, class InterventionEngine) and proofs about it.

Modelling conventions:
* Python numbers are modelled as rationals (ℚ); score dictionaries carry
  values that may be numbers, booleans or strings (`Val`), since the engine
  is fed a `Dict[str, Any]`.
* `dict.get(key, default)` on a score field is `getV`; direct indexing
  `d[key]` is `pyIndex` and can fail with a KeyError.
* Python comparisons `v > n` / `v < n` coerce booleans to 0/1 and raise
  TypeError on strings; they are `pyGt` / `pyLt`, returning `Except`.
* `random.choice([a, b])` is modelled by a boolean draw `pick`
  (true picks the first element); `random.sample(xs, k)` is modelled by an
  abstract sampler parameter `sample : List String → ℕ → List String`.
* Leading underscores of the Python method names are dropped.
-/

namespace EmoRadar

/-- A value stored in the `emotion_data` dictionary (`Dict[str, Any]`). -/
inductive Val where
  | num  (q : ℚ)
  | boolean (b : Bool)
  | str  (s : String)
deriving DecidableEq

/-- Numeric reading of a value, as Python comparison operators see it:
booleans coerce to 0/1, strings have no numeric reading. -/
def Val.toNum : Val → Option ℚ
  | .num q => some q
  | .boolean b => some (if b then 1 else 0)
  | .str _ => none

/-- Python `v > n` for a dictionary value against a numeric literal:
TypeError when `v` is a string. -/
def pyGt (v : Val) (n : ℚ) : Except String Bool :=
  match v.toNum with
  | some q => .ok (decide (n < q))
  | none => .error "TypeError"

/-- Python `v < n` for a dictionary value against a numeric literal. -/
def pyLt (v : Val) (n : ℚ) : Except String Bool :=
  match v.toNum with
  | some q => .ok (decide (q < n))
  | none => .error "TypeError"

/-- Numeric value of `v` in an arithmetic context such as `10 - v`
(TypeError on strings, booleans coerce). -/
def valAsNum (v : Val) : Except String ℚ :=
  match v.toNum with
  | some q => .ok q
  | none => .error "TypeError"

/-- Python `emotion_data[key]`: KeyError when the key is absent. -/
def pyIndex (o : Option Val) : Except String Val :=
  match o with
  | some v => .ok v
  | none => .error "KeyError"

/-- Python `emotion_data.get(key, d)` with a numeric default. -/
def getV (o : Option Val) (d : ℚ) : Val :=
  o.getD (Val.num d)

/-- The score dictionary, restricted to the keys the engine ever reads.
`none` models an absent key.  (The key `learning_readiness` mentioned in
the data model is never read by the engine and is omitted.) -/
structure EmotionData where
  frustration : Option Val := none
  confusion : Option Val := none
  engagement : Option Val := none
  confidence : Option Val := none
  excitement : Option Val := none
  overall_wellbeing : Option Val := none
deriving DecidableEq

/-- `class InterventionType(Enum)`. -/
inductive InterventionType where
  | immediate | adaptive | supportive | motivational | cognitive
deriving DecidableEq

/-- `InterventionType.value` (the `.value` attribute of the Python enum). -/
def InterventionType.value : InterventionType → String
  | .immediate => "immediate"
  | .adaptive => "adaptive"
  | .supportive => "supportive"
  | .motivational => "motivational"
  | .cognitive => "cognitive"

/-- `intervention_type.value.title()` as used in the explanation strings. -/
def InterventionType.valueTitle : InterventionType → String
  | .immediate => "Immediate"
  | .adaptive => "Adaptive"
  | .supportive => "Supportive"
  | .motivational => "Motivational"
  | .cognitive => "Cognitive"

/-- `class LearningPhase(Enum)`. -/
inductive LearningPhase where
  | introduction | practice | application | assessment | review
deriving DecidableEq

/-- Python `max(concerns, key=lambda x: x[1])`: the first element of
maximum weight (a later element replaces the current best only when its
weight is strictly greater). -/
def pyMax (c : String × ℚ) (cs : List (String × ℚ)) : String × ℚ :=
  cs.foldl (fun best x => if best.2 < x.2 then x else best) c

/-- One `if emotion_data.get(k, 5) > 7: concerns.append((name, emotion_data[k]))`
block of `_identify_primary_concern`. -/
def checkHigh (o : Option Val) (name : String) :
    Except String (List (String × ℚ)) := do
  if ← pyGt (getV o 5) 7 then
    let w ← valAsNum (← pyIndex o)
    pure [(name, w)]
  else
    pure []

/-- One `if emotion_data.get(k, 5) < 4: concerns.append((name, 10 - emotion_data[k]))`
block of `_identify_primary_concern`. -/
def checkLow (o : Option Val) (name : String) :
    Except String (List (String × ℚ)) := do
  if ← pyLt (getV o 5) 4 then
    let w ← valAsNum (← pyIndex o)
    pure [(name, 10 - w)]
  else
    pure []

/-- `InterventionEngine._identify_primary_concern` (lines 216-244). -/
def identify_primary_concern (e : EmotionData) : Except String String := do
  let c1 ← checkHigh e.frustration "high_frustration"
  let c2 ← checkHigh e.confusion "high_confusion"
  let c3 ← checkLow e.engagement "low_engagement"
  let c4 ← checkLow e.confidence "low_confidence"
  let concerns := c1 ++ c2 ++ c3 ++ c4
  match concerns with
  | c :: cs => pure (pyMax c cs).1
  | [] =>
    if ← pyGt (getV e.engagement 5) 7 then
      if ← pyGt (getV e.confidence 5) 6 then
        if ← pyLt (getV e.frustration 5) 4 then
          pure "optimal_state"
        else
          pure "neutral_state"
      else
        pure "neutral_state"
    else
      pure "neutral_state"

/-- `InterventionEngine._calculate_intervention_urgency` (lines 246-276).
The critical and high indicator comparisons are evaluated eagerly (they are
assigned to local variables before the `or`); the medium-level
`moderate_concerns` expression short-circuits like the Python `or`. -/
def calculate_intervention_urgency (e : EmotionData) : Except String String := do
  let critical_frustration ← pyGt (getV e.frustration 5) 8
  let critical_confusion ← pyGt (getV e.confusion 5) 8
  let critical_disengagement ← pyLt (getV e.engagement 5) 2
  if critical_frustration || critical_confusion || critical_disengagement then
    pure "critical"
  else
    let high_frustration ← pyGt (getV e.frustration 5) 6
    let high_confusion ← pyGt (getV e.confusion 5) 6
    let low_engagement ← pyLt (getV e.engagement 5) 4
    if high_frustration || high_confusion || low_engagement then
      pure "high"
    else
      let moderate_concerns ← do
        if ← pyGt (getV e.frustration 5) 4 then pure true
        else if ← pyGt (getV e.confusion 5) 5 then pure true
        else if ← pyLt (getV e.engagement 5) 6 then pure true
        else pyLt (getV e.confidence 5) 5
      if moderate_concerns then
        pure "medium"
      else
        pure "low"

/-- The strategy catalog `self.intervention_strategies` (lines 44-143),
as an association list preserving the declaration order of both the
concern keys and, inside each entry, the intervention-type keys
(Python dictionaries iterate in insertion order). -/
def intervention_strategies :
    List (String × List (InterventionType × List String)) :=
  [ ("high_frustration",
      [ (.immediate,
          [ "Take a 5-minute mindful breathing break",
            "Step away and do light physical activity",
            "Switch to a completely different subject for 10 minutes",
            "Talk through the problem out loud or with someone" ]),
        (.adaptive,
          [ "Break the current problem into smaller, manageable steps",
            "Use visual aids or diagrams to represent the concept",
            "Find real-world analogies that relate to your experience",
            "Try working backwards from the solution" ]),
        (.supportive,
          [ "Access additional examples of similar problems",
            "Watch explanatory videos on the topic",
            "Join a study group or find a learning partner",
            "Schedule time with a tutor or instructor" ]) ]),
    ("high_confusion",
      [ (.cognitive,
          [ "Create a concept map to organize related ideas",
            "Write a summary of what you do understand so far",
            "Identify specific points of confusion to focus on",
            "Use the \x27explain it to a 5-year-old\x27 technique" ]),
        (.adaptive,
          [ "Return to prerequisite concepts and review",
            "Approach the topic from a different angle or method",
            "Use multiple learning modalities (visual, audio, kinesthetic)",
            "Practice with easier examples before tackling hard ones" ]),
        (.supportive,
          [ "Seek clarification on confusing terminology",
            "Find additional resources with different explanations",
            "Ask specific questions rather than \x27I don\x27t get it\x27",
            "Work with examples that build complexity gradually" ]) ]),
    ("low_engagement",
      [ (.motivational,
          [ "Connect the material to your personal interests or goals",
            "Set small, achievable milestones with rewards",
            "Find the \x27why\x27 behind what you\x27re learning",
            "Challenge yourself with a fun, related puzzle" ]),
        (.adaptive,
          [ "Switch to more interactive learning methods",
            "Incorporate gamification or competition elements",
            "Use multimedia content (videos, podcasts, apps)",
            "Apply learning through hands-on projects" ]),
        (.supportive,
          [ "Study with peers or in a group setting",
            "Change your learning environment for freshness",
            "Set shorter study sessions with clear objectives",
            "Track progress visually to see improvement" ]) ]),
    ("low_confidence",
      [ (.motivational,
          [ "Review recent successes and progress made",
            "Start with easier problems to build momentum",
            "Focus on effort and improvement rather than perfection",
            "Remind yourself that struggle is part of learning" ]),
        (.supportive,
          [ "Practice positive self-talk and growth mindset",
            "Break challenges into very small, manageable pieces",
            "Celebrate small wins and incremental progress",
            "Seek encouragement from mentors or study partners" ]),
        (.adaptive,
          [ "Use scaffolding techniques with guided practice",
            "Work with templates or structured approaches",
            "Practice similar problems before trying new ones",
            "Build confidence with mastery-based learning" ]) ]),
    ("optimal_state",
      [ (.adaptive,
          [ "Increase challenge level to maintain optimal difficulty",
            "Explore advanced applications of current concepts",
            "Teach the concept to someone else to deepen understanding",
            "Connect current learning to broader knowledge network" ]),
        (.supportive,
          [ "Document insights and breakthrough moments",
            "Apply learning to creative or novel problems",
            "Explore related topics that spark curiosity",
            "Prepare to help others who might be struggling" ]) ]) ]

/-- `InterventionEngine._generate_intervention_explanation` (lines 358-370):
the dictionary of f-strings is built eagerly, then looked up with a
generic fallback. -/
def generate_intervention_explanation (concern : String)
    (intervention_type : InterventionType) (_urgency : String) : String :=
  let explanations : List (String × String) :=
    [ ("high_frustration", "Student showing signs of learning frustration. "
        ++ intervention_type.valueTitle
        ++ " intervention needed to prevent negative learning spiral."),
      ("high_confusion", "Cognitive confusion detected. "
        ++ intervention_type.valueTitle
        ++ " support will help clarify concepts and reduce cognitive load."),
      ("low_engagement", "Engagement levels below optimal range. "
        ++ intervention_type.valueTitle
        ++ " strategies will help re-energize learning process."),
      ("low_confidence", "Confidence indicators suggest student needs encouragement. "
        ++ intervention_type.valueTitle
        ++ " approach will build self-efficacy."),
      ("optimal_state", "Student in excellent learning state. "
        ++ intervention_type.valueTitle
        ++ " enhancement will maximize learning potential.") ]
  (explanations.lookup concern).getD
    ("Emotional state analysis suggests " ++ intervention_type.value
      ++ " intervention would be beneficial.")

/-- `InterventionEngine._define_success_indicators` (lines 372-398). -/
def define_success_indicators (concern : String) : List String :=
  let indicators : List (String × List String) :=
    [ ("high_frustration",
        [ "Decreased facial tension and more relaxed posture",
          "Renewed willingness to attempt problems",
          "Improved emotional regulation" ]),
      ("high_confusion",
        [ "Clearer understanding demonstrated through questions",
          "Improved accuracy on practice problems",
          "More confident body language" ]),
      ("low_engagement",
        [ "Increased attention and focus on materials",
          "Active participation in learning activities",
          "Positive emotional responses to content" ]),
      ("low_confidence",
        [ "Improved posture and self-assured behavior",
          "Willingness to attempt challenging problems",
          "Positive self-statements about ability" ]) ]
  (indicators.lookup concern).getD
    ["Improved overall emotional state", "Better learning engagement"]

/-- The dictionary returned by `_generate_interventions`. -/
structure Interventions where
  type : InterventionType
  actions : List String
  explanation : String
  success_indicators : List String
deriving DecidableEq

/-- `InterventionEngine._generate_interventions` (lines 278-325).
`pick` models the single `random.choice` draw between two types (true
selects the first listed element); `sample` models
`random.sample(actions, min(2, len(actions)))`. -/
def generate_interventions (primary_concern urgency : String)
    (_phase : LearningPhase) (pick : Bool)
    (sample : List String → ℕ → List String) : Interventions :=
  match intervention_strategies.lookup primary_concern with
  | none =>
    { type := .supportive,
      actions := ["Continue monitoring student progress"],
      explanation := "No specific intervention needed at this time",
      success_indicators := ["Maintained engagement", "Steady progress"] }
  | some strategies =>
    let intervention_type : InterventionType :=
      if urgency = "critical" then .immediate
      else if urgency = "high" then (if pick then .immediate else .adaptive)
      else if urgency = "medium" then (if pick then .adaptive else .supportive)
      else .supportive
    let resolved : InterventionType × List String :=
      match strategies.lookup intervention_type with
      | some acts => (intervention_type, acts)
      | none =>
        match strategies with
        | t :: _ => t
        | [] => (intervention_type, [])
    let selected_actions := sample resolved.2 (min 2 resolved.2.length)
    { type := resolved.1,
      actions := selected_actions,
      explanation :=
        generate_intervention_explanation primary_concern resolved.1 urgency,
      success_indicators := define_success_indicators primary_concern }

/-- The timing triple `{when, duration, frequency}`. -/
structure Timing where
  whenField : String
  duration : String
  frequency : String
deriving DecidableEq

/-- The `timing_map` dictionary of `_calculate_intervention_timing`
(lines 333-354), in declaration order. -/
def timing_map : List (String × Timing) :=
  [ ("critical", ⟨"immediately", "5-10 minutes", "as needed"⟩),
    ("high", ⟨"within next 2-3 minutes", "3-5 minutes", "monitor every 5 minutes"⟩),
    ("medium", ⟨"at next natural break", "2-3 minutes", "check every 10 minutes"⟩),
    ("low", ⟨"end of current activity", "1-2 minutes", "monitor every 15 minutes"⟩) ]

/-- `timing_map.get(urgency, timing_map[\x27medium\x27])`: lookup with the
medium row as fallback. -/
def timing_lookup (urgency : String) : Timing :=
  (timing_map.lookup urgency).getD
    ⟨"at next natural break", "2-3 minutes", "check every 10 minutes"⟩

/-- `InterventionEngine._calculate_intervention_timing` (lines 327-356):
it recomputes the urgency from the raw scores and then performs the pure
table lookup. -/
def calculate_intervention_timing (e : EmotionData)
    (_learning_context : Option (Option LearningPhase)) :
    Except String Timing := do
  let urgency ← calculate_intervention_urgency e
  pure (timing_lookup urgency)

/-- The `predicted_outcome` dictionary. -/
structure PredictedOutcome where
  likelihood_of_success : String
  expected_timeframe : String
  confidence_level : String
deriving DecidableEq

/-- The `improvement_factors` dictionary (lines 408-414). -/
def improvement_factors : List (InterventionType × ℚ) :=
  [ (.immediate, 8/10),
    (.adaptive, 6/10),
    (.supportive, 4/10),
    (.motivational, 7/10),
    (.cognitive, 5/10) ]

/-- Python `f"\x7bx * 100:.0f\x7d%"` for the factors above: the product is an
exact integer in every reachable case, where rounding to the nearest
integer (Python rounds half to even; `round` rounds half up; both agree on
integers) and printing coincide. -/
def format_pct (q : ℚ) : String :=
  toString (round q : ℤ) ++ "%"

/-- `InterventionEngine._predict_intervention_outcome` (lines 400-422).
`current_state` is read from `overall_wellbeing` (default 0) but never
used afterwards. -/
def predict_intervention_outcome (e : EmotionData)
    (interventions : Interventions) : PredictedOutcome :=
  let _current_state : Val := e.overall_wellbeing.getD (.num 0)
  let predicted_improvement : ℚ :=
    (improvement_factors.lookup interventions.type).getD (5/10)
  { likelihood_of_success := format_pct (predicted_improvement * 100),
    expected_timeframe := "5-15 minutes",
    confidence_level :=
      if (5/10 : ℚ) < predicted_improvement then "moderate" else "low" }

/-- The dictionary returned by `analyze_intervention_need`. -/
structure Recommendation where
  primary_concern : String
  urgency_level : String
  intervention_type : InterventionType
  recommended_actions : List String
  timing : Timing
  explanation : String
  success_indicators : List String
  learning_phase : LearningPhase
  predicted_outcome : PredictedOutcome
deriving DecidableEq

/-- `InterventionEngine.analyze_intervention_need` (lines 169-214).
The bare score extractions of lines 183-187 bind unused local variables
(plain `.get` reads that cannot fail) and are omitted.  The optional
`learning_context` dictionary is modelled by the phase value it may carry:
`none` is an absent context, `some none` a context without a phase key. -/
def analyze_intervention_need (e : EmotionData)
    (learning_context : Option (Option LearningPhase)) (pick : Bool)
    (sample : List String → ℕ → List String) :
    Except String Recommendation := do
  let primary_concern ← identify_primary_concern e
  let urgency ← calculate_intervention_urgency e
  let current_phase :=
    match learning_context with
    | some ctx => ctx.getD LearningPhase.practice
    | none => LearningPhase.practice
  let interventions := generate_interventions primary_concern urgency
    current_phase pick sample
  let timing ← calculate_intervention_timing e learning_context
  pure
    { primary_concern := primary_concern,
      urgency_level := urgency,
      intervention_type := interventions.type,
      recommended_actions := interventions.actions,
      timing := timing,
      explanation := interventions.explanation,
      success_indicators := interventions.success_indicators,
      learning_phase := current_phase,
      predicted_outcome := predict_intervention_outcome e interventions }

/-! ### Spec-side definitions

These follow the wording of the specification, stated over the four
numeric readings of the score fields (missing fields read as 5), to be
compared with the embedded code above. -/

/-- Spec 4.1: the four distress predicates, in evaluation order, with
their weights. -/
def spec_fired (f c g d : ℚ) : List (String × ℚ) :=
  (if 7 < f then [("high_frustration", f)] else []) ++
  (if 7 < c then [("high_confusion", c)] else []) ++
  (if g < 4 then [("low_engagement", 10 - g)] else []) ++
  (if d < 4 then [("low_confidence", 10 - d)] else [])

/-- Spec 4.1: concern identification — the firing concern of maximum
weight (ties broken by evaluation order, frustration first); if none
fires, the optimal-state predicate decides between optimal and neutral. -/
def spec_concern (f c g d : ℚ) : String :=
  match spec_fired f c g d with
  | x :: xs => (pyMax x xs).1
  | [] =>
    if 7 < g ∧ 6 < d ∧ f < 4 then "optimal_state" else "neutral_state"

/-- Spec 4.2: the urgency ladder, evaluated top-down, first match wins. -/
def spec_urgency (f c g d : ℚ) : String :=
  if 8 < f ∨ 8 < c ∨ g < 2 then "critical"
  else if 6 < f ∨ 6 < c ∨ g < 4 then "high"
  else if 4 < f ∨ 5 < c ∨ g < 6 ∨ d < 5 then "medium"
  else "low"

/-- Spec 4.3: the urgency-mapped candidate intervention type; `pick`
models the uniform random choice between the two listed candidates. -/
def spec_candidate (urgency : String) (pick : Bool) : InterventionType :=
  if urgency = "critical" then .immediate
  else if urgency = "high" then (if pick then .immediate else .adaptive)
  else if urgency = "medium" then (if pick then .adaptive else .supportive)
  else .supportive

/-- Spec 4.5: the fixed improvement-factor table. -/
def spec_factor : InterventionType → ℚ
  | .immediate => 8/10
  | .motivational => 7/10
  | .adaptive => 6/10
  | .cognitive => 5/10
  | .supportive => 4/10

/-- The outcome estimate as a function of the intervention type alone
(the body of `_predict_intervention_outcome`, which depends on nothing
else). -/
def outcome_for (t : InterventionType) : PredictedOutcome :=
  { likelihood_of_success :=
      format_pct (((improvement_factors.lookup t).getD (5/10)) * 100),
    expected_timeframe := "5-15 minutes",
    confidence_level :=
      if (5/10 : ℚ) < (improvement_factors.lookup t).getD (5/10)
      then "moderate" else "low" }

/-- The order low < medium < high < critical on urgency strings. -/
def urgency_rank (u : String) : ℕ :=
  if u = "critical" then 3
  else if u = "high" then 2
  else if u = "medium" then 1
  else 0

/-- A score field holds a number or is absent (no booleans, no strings). -/
def isNumericOpt : Option Val → Bool
  | none => true
  | some (.num _) => true
  | some _ => false

/-- All six score fields are numeric or absent. -/
def NumericData (e : EmotionData) : Prop :=
  isNumericOpt e.frustration = true ∧ isNumericOpt e.confusion = true ∧
  isNumericOpt e.engagement = true ∧ isNumericOpt e.confidence = true ∧
  isNumericOpt e.excitement = true ∧ isNumericOpt e.overall_wellbeing = true

/-- The numeric reading of a field under the neutral default. -/
def readQ (o : Option Val) (d : ℚ) : ℚ :=
  match o with
  | some (.num q) => q
  | _ => d

/-- Replace every missing score field by the neutral value 5. -/
def fill5 (e : EmotionData) : EmotionData :=
  { frustration := some (getV e.frustration 5),
    confusion := some (getV e.confusion 5),
    engagement := some (getV e.engagement 5),
    confidence := some (getV e.confidence 5),
    excitement := some (getV e.excitement 5),
    overall_wellbeing := some (getV e.overall_wellbeing 5) }

/-- The recommendation `analyze_intervention_need` assembles once the
concern and urgency are known. -/
def assemble (e : EmotionData) (learning_context : Option (Option LearningPhase))
    (pick : Bool) (sample : List String → ℕ → List String)
    (primary_concern urgency : String) : Recommendation :=
  let current_phase :=
    match learning_context with
    | some ctx => ctx.getD LearningPhase.practice
    | none => LearningPhase.practice
  let interventions := generate_interventions primary_concern urgency
    current_phase pick sample
  { primary_concern := primary_concern,
    urgency_level := urgency,
    intervention_type := interventions.type,
    recommended_actions := interventions.actions,
    timing := timing_lookup urgency,
    explanation := interventions.explanation,
    success_indicators := interventions.success_indicators,
    learning_phase := current_phase,
    predicted_outcome := predict_intervention_outcome e interventions }

/-- A concrete sampler used in closed witness statements. -/
def sampleTake : List String → ℕ → List String :=
  fun l n => l.take n

/-! ### Bridging lemmas -/

lemma pyGt_of_toNum {v : Val} {q : ℚ} (h : v.toNum = some q) (n : ℚ) :
    pyGt v n = .ok (decide (n < q)) := by
  simp [pyGt, h]

lemma pyLt_of_toNum {v : Val} {q : ℚ} (h : v.toNum = some q) (n : ℚ) :
    pyLt v n = .ok (decide (q < n)) := by
  simp [pyLt, h]

lemma checkHigh_eq (o : Option Val) (name : String) :
    checkHigh o name =
      match (getV o 5).toNum with
      | some q => .ok (if 7 < q then [(name, q)] else [])
      | none => .error "TypeError" := by
  rcases o with _ | v
  · simp [checkHigh, getV, pyGt, Val.toNum, Bind.bind, Except.bind,
      pure, Except.pure]
    norm_num
  · rcases hv : v.toNum with _ | q
    · simp [checkHigh, getV, pyGt, hv, Bind.bind, Except.bind]
    · by_cases hq : 7 < q
      · simp [checkHigh, getV, pyGt, pyIndex, valAsNum, hv, hq,
          Bind.bind, Except.bind, Functor.map, Except.map, pure, Except.pure]
      · simp [checkHigh, getV, pyGt, pyIndex, valAsNum, hv, hq,
          Bind.bind, Except.bind, Functor.map, Except.map, pure, Except.pure]

lemma checkLow_eq (o : Option Val) (name : String) :
    checkLow o name =
      match (getV o 5).toNum with
      | some q => .ok (if q < 4 then [(name, 10 - q)] else [])
      | none => .error "TypeError" := by
  rcases o with _ | v
  · simp [checkLow, getV, pyLt, Val.toNum, Bind.bind, Except.bind,
      pure, Except.pure]
    norm_num
  · rcases hv : v.toNum with _ | q
    · simp [checkLow, getV, pyLt, hv, Bind.bind, Except.bind]
    · by_cases hq : q < 4
      · simp [checkLow, getV, pyLt, pyIndex, valAsNum, hv, hq,
          Bind.bind, Except.bind, Functor.map, Except.map, pure, Except.pure]
      · simp [checkLow, getV, pyLt, pyIndex, valAsNum, hv, hq,
          Bind.bind, Except.bind, Functor.map, Except.map, pure, Except.pure]

/-- On data whose four graded fields read as numbers (missing fields read
as 5), concern identification agrees with the spec-side description. -/
lemma identify_eq (e : EmotionData) {f c g d : ℚ}
    (hf : (getV e.frustration 5).toNum = some f)
    (hc : (getV e.confusion 5).toNum = some c)
    (hg : (getV e.engagement 5).toNum = some g)
    (hd : (getV e.confidence 5).toNum = some d) :
    identify_primary_concern e = .ok (spec_concern f c g d) := by
  have e1 : checkHigh e.frustration "high_frustration" =
      .ok (if 7 < f then [("high_frustration", f)] else []) := by
    rw [checkHigh_eq, hf]
  have e2 : checkHigh e.confusion "high_confusion" =
      .ok (if 7 < c then [("high_confusion", c)] else []) := by
    rw [checkHigh_eq, hc]
  have e3 : checkLow e.engagement "low_engagement" =
      .ok (if g < 4 then [("low_engagement", 10 - g)] else []) := by
    rw [checkLow_eq, hg]
  have e4 : checkLow e.confidence "low_confidence" =
      .ok (if d < 4 then [("low_confidence", 10 - d)] else []) := by
    rw [checkLow_eq, hd]
  simp only [identify_primary_concern, e1, e2, e3, e4, Bind.bind,
    Except.bind, spec_concern, spec_fired]
  by_cases h1 : 7 < f <;> by_cases h2 : 7 < c <;>
    by_cases h3 : g < 4 <;> by_cases h4 : d < 4 <;>
    (simp [h1, h2, h3, h4, pyGt_of_toNum hg, pyGt_of_toNum hd,
      pyLt_of_toNum hf, Bind.bind, Except.bind, pure, Except.pure];
     try (split_ifs <;> first | rfl | tauto))

set_option maxHeartbeats 1000000 in
/-- On data whose four graded fields read as numbers (missing fields read
as 5), urgency grading agrees with the spec-side ladder. -/
lemma urgency_eq (e : EmotionData) {f c g d : ℚ}
    (hf : (getV e.frustration 5).toNum = some f)
    (hc : (getV e.confusion 5).toNum = some c)
    (hg : (getV e.engagement 5).toNum = some g)
    (hd : (getV e.confidence 5).toNum = some d) :
    calculate_intervention_urgency e = .ok (spec_urgency f c g d) := by
  simp only [calculate_intervention_urgency, pyGt_of_toNum hf,
    pyGt_of_toNum hc, pyLt_of_toNum hg, pyLt_of_toNum hd, Bind.bind,
    Except.bind, spec_urgency, Bool.or_eq_true, decide_eq_true_eq]
  split_ifs <;> first | rfl | tauto

/-- `_calculate_intervention_timing` is the table lookup applied to the
recomputed urgency. -/
lemma timing_of_urgency (e : EmotionData)
    (lc : Option (Option LearningPhase)) {u : String}
    (hu : calculate_intervention_urgency e = .ok u) :
    calculate_intervention_timing e lc = .ok (timing_lookup u) := by
  simp [calculate_intervention_timing, hu, Bind.bind, Except.bind, pure,
    Except.pure]

/-- `_predict_intervention_outcome` depends only on the intervention type
it is handed. -/
lemma predict_eq_outcome_for (e : EmotionData) (i : Interventions) :
    predict_intervention_outcome e i = outcome_for i.type := rfl

/-- When concern identification and urgency grading succeed, the full
analysis succeeds and assembles the recommendation from them. -/
lemma analyze_ok (e : EmotionData) (lc : Option (Option LearningPhase))
    (pick : Bool) (sample : List String → ℕ → List String)
    {pc u : String} (hpc : identify_primary_concern e = .ok pc)
    (hu : calculate_intervention_urgency e = .ok u) :
    analyze_intervention_need e lc pick sample =
      .ok (assemble e lc pick sample pc u) := by
  simp [analyze_intervention_need, hpc, hu,
    timing_of_urgency e lc hu, assemble, Bind.bind, Except.bind, pure,
    Except.pure]

/-- Conversely, a successful analysis determines a successful concern and
urgency computation whose results assemble the returned recommendation. -/
lemma analyze_ok_inv {e : EmotionData} {lc : Option (Option LearningPhase)}
    {pick : Bool} {sample : List String → ℕ → List String}
    {r : Recommendation}
    (h : analyze_intervention_need e lc pick sample = .ok r) :
    ∃ pc u, identify_primary_concern e = .ok pc ∧
      calculate_intervention_urgency e = .ok u ∧
      r = assemble e lc pick sample pc u := by
  rcases hpc : identify_primary_concern e with s | pc
  · simp [analyze_intervention_need, hpc, Bind.bind, Except.bind] at h
  · rcases hu : calculate_intervention_urgency e with s | u
    · simp [analyze_intervention_need, hpc, hu, Bind.bind, Except.bind] at h
    · refine ⟨pc, u, rfl, rfl, ?_⟩
      have := analyze_ok e lc pick sample hpc hu
      rw [this] at h
      exact (Except.ok.injEq _ _ ▸ h).symm

/-- Python `max` returns an element of the list it scans. -/
lemma pyMax_mem (cs : List (String × ℚ)) :
    ∀ c, pyMax c cs ∈ c :: cs := by
  induction cs with
  | nil => intro c; simp [pyMax]
  | cons a as ih =>
    intro c
    simp only [pyMax, List.foldl_cons]
    by_cases hca : c.2 < a.2
    · simp only [hca, if_true]
      have h := ih a
      simp only [pyMax] at h
      exact List.mem_cons_of_mem _ h
    · simp only [hca, if_false]
      have h := ih c
      simp only [pyMax] at h
      rcases List.mem_cons.mp h with h | h
      · exact List.mem_cons.mpr (Or.inl h)
      · exact List.mem_cons.mpr (Or.inr (List.mem_cons_of_mem a h))

/-- Every fired entry is one of the four distress concerns. -/
lemma spec_fired_names {f c g d : ℚ} {p : String × ℚ}
    (hp : p ∈ spec_fired f c g d) :
    p.1 ∈ ["high_frustration", "high_confusion", "low_engagement",
      "low_confidence"] := by
  simp only [spec_fired, List.mem_append] at hp
  rcases hp with ((hp | hp) | hp) | hp <;> split_ifs at hp <;> simp_all

/-- The selected concern is one of the six concern values. -/
lemma spec_concern_mem (f c g d : ℚ) :
    spec_concern f c g d ∈ ["high_frustration", "high_confusion",
      "low_engagement", "low_confidence", "optimal_state",
      "neutral_state"] := by
  unfold spec_concern
  rcases hm : spec_fired f c g d with _ | ⟨x, xs⟩
  · split_ifs <;> simp
  · have hmem : pyMax x xs ∈ x :: xs := pyMax_mem xs x
    rw [← hm] at hmem
    have := spec_fired_names hmem
    simp only [List.mem_cons, List.mem_singleton] at this ⊢
    tauto

/-- The graded urgency is one of the four ladder values. -/
lemma spec_urgency_mem (f c g d : ℚ) :
    spec_urgency f c g d ∈ ["critical", "high", "medium", "low"] := by
  unfold spec_urgency
  split_ifs <;> simp

lemma urgency_rank_le_three (u : String) : urgency_rank u ≤ 3 := by
  unfold urgency_rank
  split_ifs <;> norm_num

/-- The ladder is monotone: worsening every score cannot lower the
urgency. -/
lemma spec_urgency_mono {f c g d f' c' g' d' : ℚ}
    (hf : f ≤ f') (hc : c ≤ c') (hg : g' ≤ g) (hd : d' ≤ d) :
    urgency_rank (spec_urgency f c g d) ≤
      urgency_rank (spec_urgency f' c' g' d') := by
  unfold spec_urgency
  by_cases hC : 8 < f' ∨ 8 < c' ∨ g' < 2
  · rw [if_pos hC]
    have h3 : urgency_rank "critical" = 3 := rfl
    rw [h3]
    exact urgency_rank_le_three _
  · have hCm : ¬(8 < f ∨ 8 < c ∨ g < 2) := by
      intro h
      apply hC
      rcases h with h | h | h
      · exact Or.inl (by linarith)
      · exact Or.inr (Or.inl (by linarith))
      · exact Or.inr (Or.inr (by linarith))
    rw [if_neg hC, if_neg hCm]
    by_cases hH : 6 < f' ∨ 6 < c' ∨ g' < 4
    · rw [if_pos hH]
      have h2 : urgency_rank "high" = 2 := rfl
      rw [h2]
      split_ifs <;> simp [urgency_rank]
    · have hHm : ¬(6 < f ∨ 6 < c ∨ g < 4) := by
        intro h
        apply hH
        rcases h with h | h | h
        · exact Or.inl (by linarith)
        · exact Or.inr (Or.inl (by linarith))
        · exact Or.inr (Or.inr (by linarith))
      rw [if_neg hH, if_neg hHm]
      by_cases hM : 4 < f' ∨ 5 < c' ∨ g' < 6 ∨ d' < 5
      · rw [if_pos hM]
        have h1 : urgency_rank "medium" = 1 := rfl
        rw [h1]
        split_ifs <;> simp [urgency_rank]
      · have hMm : ¬(4 < f ∨ 5 < c ∨ g < 6 ∨ d < 5) := by
          intro h
          apply hM
          rcases h with h | h | h | h
          · exact Or.inl (by linarith)
          · exact Or.inr (Or.inl (by linarith))
          · exact Or.inr (Or.inr (Or.inl (by linarith)))
          · exact Or.inr (Or.inr (Or.inr (by linarith)))
        rw [if_neg hM, if_neg hMm]

/-- A distress concern can only be selected when one of the four distress
predicates holds. -/
lemma spec_concern_distress {f c g d : ℚ}
    (h : spec_concern f c g d ∈ ["high_frustration", "high_confusion",
      "low_engagement", "low_confidence"]) :
    7 < f ∨ 7 < c ∨ g < 4 ∨ d < 4 := by
  by_contra hno
  push_neg at hno
  obtain ⟨h1, h2, h3, h4⟩ := hno
  simp [spec_concern, spec_fired, not_lt.mpr h1, not_lt.mpr h2,
    not_lt.mpr h3, not_lt.mpr h4] at h
  split_ifs at h <;> simp_all

/-- Any of the distress thresholds lands at least on the medium rung. -/
lemma spec_urgency_ne_low {f c g d : ℚ}
    (h : 7 < f ∨ 7 < c ∨ g < 4 ∨ d < 4) :
    spec_urgency f c g d ≠ "low" := by
  unfold spec_urgency
  split_ifs with h1 h2 h3
  · simp
  · simp
  · simp
  · exfalso
    push_neg at h3
    obtain ⟨m1, m2, m3, m4⟩ := h3
    rcases h with h | h | h | h <;> linarith

/-- A numeric-or-absent field reads as its value, or as the default. -/
lemma numeric_toNum {o : Option Val} (h : isNumericOpt o = true) (d : ℚ) :
    (getV o d).toNum = some (readQ o d) := by
  rcases o with _ | v
  · rfl
  · rcases v with q | b | s
    · rfl
    · simp [isNumericOpt] at h
    · simp [isNumericOpt] at h

/-- A successful concern identification forces all four graded fields to
read as numbers. -/
lemma identify_ok_toNum {e : EmotionData} {k : String}
    (h : identify_primary_concern e = .ok k) :
    ∃ f c g d, (getV e.frustration 5).toNum = some f ∧
      (getV e.confusion 5).toNum = some c ∧
      (getV e.engagement 5).toNum = some g ∧
      (getV e.confidence 5).toNum = some d := by
  rcases hf : (getV e.frustration 5).toNum with _ | f
  · exfalso
    have e1 : checkHigh e.frustration "high_frustration" =
        .error "TypeError" := by rw [checkHigh_eq, hf]
    simp [identify_primary_concern, e1, Bind.bind, Except.bind] at h
  · have e1 : checkHigh e.frustration "high_frustration" =
        .ok (if 7 < f then [("high_frustration", f)] else []) := by
      rw [checkHigh_eq, hf]
    rcases hc : (getV e.confusion 5).toNum with _ | c
    · exfalso
      have e2 : checkHigh e.confusion "high_confusion" =
          .error "TypeError" := by rw [checkHigh_eq, hc]
      simp [identify_primary_concern, e1, e2, Bind.bind, Except.bind] at h
    · have e2 : checkHigh e.confusion "high_confusion" =
          .ok (if 7 < c then [("high_confusion", c)] else []) := by
        rw [checkHigh_eq, hc]
      rcases hg : (getV e.engagement 5).toNum with _ | g
      · exfalso
        have e3 : checkLow e.engagement "low_engagement" =
            .error "TypeError" := by rw [checkLow_eq, hg]
        simp [identify_primary_concern, e1, e2, e3, Bind.bind,
          Except.bind] at h
      · have e3 : checkLow e.engagement "low_engagement" =
            .ok (if g < 4 then [("low_engagement", 10 - g)] else []) := by
          rw [checkLow_eq, hg]
        rcases hd : (getV e.confidence 5).toNum with _ | d
        · exfalso
          have e4 : checkLow e.confidence "low_confidence" =
              .error "TypeError" := by rw [checkLow_eq, hd]
          simp [identify_primary_concern, e1, e2, e3, e4, Bind.bind,
            Except.bind] at h
        · exact ⟨f, c, g, d, rfl, rfl, rfl, rfl⟩

/-- Every intervention type is one of the five enum members. -/
lemma interventionType_mem (t : InterventionType) :
    t ∈ [InterventionType.immediate, .adaptive, .supportive,
      .motivational, .cognitive] := by
  cases t <;> simp

/-! ### Claim theorems -/

/-- C1: For every score mapping whose four graded fields read as numbers
(missing fields read as 5), `_identify_primary_concern` evaluates the
four distress predicates frustration > 7 (weight frustration),
confusion > 7 (weight confusion), engagement < 4 (weight
10 - engagement), confidence < 4 (weight 10 - confidence); if at least
one fires it returns the firing concern of maximum weight, ties broken
by the evaluation order frustration, confusion, engagement, confidence;
if none fires it returns optimal_state exactly when engagement > 7 and
confidence > 6 and frustration < 4, and neutral_state otherwise — all
captured by the spec-side function `spec_concern`. -/
theorem C1_concern_identification :
    ∀ (e : EmotionData) (f c g d : ℚ),
      (getV e.frustration 5).toNum = some f →
      (getV e.confusion 5).toNum = some c →
      (getV e.engagement 5).toNum = some g →
      (getV e.confidence 5).toNum = some d →
      identify_primary_concern e = .ok (spec_concern f c g d) :=
  fun e _ _ _ _ hf hc hg hd => identify_eq e hf hc hg hd

/-- Witness for C1 at the concrete mapping with frustration 9 and all
other fields absent: the concern is high_frustration. -/
theorem C1_concern_identification_witness :
    identify_primary_concern ⟨some (.num 9), none, none, none, none, none⟩ =
        .ok (spec_concern 9 5 5 5) ∧
      spec_concern 9 5 5 5 = "high_frustration" :=
  ⟨C1_concern_identification ⟨some (.num 9), none, none, none, none, none⟩
      9 5 5 5 rfl rfl rfl rfl,
    by rfl⟩

/-- C2: For every score mapping whose four graded fields read as numbers
(missing fields read as 5), `_calculate_intervention_urgency` returns the
first matching level of the top-down ladder captured by `spec_urgency`
(critical: frustration > 8 or confusion > 8 or engagement < 2; high:
frustration > 6 or confusion > 6 or engagement < 4; medium:
frustration > 4 or confusion > 5 or engagement < 6 or confidence < 5;
else low); in particular the empty mapping grades medium and identifies
the concern neutral_state. -/
theorem C2_urgency_grading :
    (∀ (e : EmotionData) (f c g d : ℚ),
      (getV e.frustration 5).toNum = some f →
      (getV e.confusion 5).toNum = some c →
      (getV e.engagement 5).toNum = some g →
      (getV e.confidence 5).toNum = some d →
      calculate_intervention_urgency e = .ok (spec_urgency f c g d)) ∧
    calculate_intervention_urgency {} = .ok "medium" ∧
    identify_primary_concern {} = .ok "neutral_state" :=
  ⟨fun e _ _ _ _ hf hc hg hd => urgency_eq e hf hc hg hd, rfl, rfl⟩

/-- Witness for C2 at the concrete mapping with frustration 9: the
urgency ladder grades critical. -/
theorem C2_urgency_grading_witness :
    calculate_intervention_urgency
        ⟨some (.num 9), none, none, none, none, none⟩ =
        .ok (spec_urgency 9 5 5 5) ∧
      spec_urgency 9 5 5 5 = "critical" :=
  ⟨C2_urgency_grading.1 ⟨some (.num 9), none, none, none, none, none⟩
      9 5 5 5 rfl rfl rfl rfl,
    by rfl⟩

/-- C8: Urgency grading is monotone in distress: worsening every graded
score (frustration and confusion up, engagement and confidence down)
never lowers the urgency in the order low < medium < high < critical. -/
theorem C8_urgency_monotone :
    ∀ (e e' : EmotionData) (f c g d f' c' g' d' : ℚ),
      (getV e.frustration 5).toNum = some f →
      (getV e.confusion 5).toNum = some c →
      (getV e.engagement 5).toNum = some g →
      (getV e.confidence 5).toNum = some d →
      (getV e'.frustration 5).toNum = some f' →
      (getV e'.confusion 5).toNum = some c' →
      (getV e'.engagement 5).toNum = some g' →
      (getV e'.confidence 5).toNum = some d' →
      f ≤ f' → c ≤ c' → g' ≤ g → d' ≤ d →
      ∀ u u', calculate_intervention_urgency e = .ok u →
        calculate_intervention_urgency e' = .ok u' →
        urgency_rank u ≤ urgency_rank u' := by
  intro e e' f c g d f' c' g' d' hf hc hg hd hf' hc' hg' hd'
    mf mc mg md u u' hu hu'
  rw [urgency_eq e hf hc hg hd] at hu
  rw [urgency_eq e' hf' hc' hg' hd'] at hu'
  injection hu with hu
  injection hu' with hu'
  subst hu
  subst hu'
  exact spec_urgency_mono mf mc mg md

/-- Witness for C8: the empty mapping grades medium, the mapping with
frustration 9 grades critical, and medium ≤ critical in rank. -/
theorem C8_urgency_monotone_witness :
    urgency_rank "medium" ≤ urgency_rank "critical" :=
  C8_urgency_monotone {} ⟨some (.num 9), none, none, none, none, none⟩
    5 5 5 5 9 5 5 5 rfl rfl rfl rfl rfl rfl rfl rfl
    (by norm_num) (by norm_num) (by norm_num) (by norm_num)
    "medium" "critical" rfl rfl

/-- C10: If concern identification returns one of the four distress
concerns, urgency grading on the same mapping never returns low. -/
theorem C10_distress_not_low :
    ∀ (e : EmotionData) (k u : String),
      identify_primary_concern e = .ok k →
      k ∈ ["high_frustration", "high_confusion", "low_engagement",
        "low_confidence"] →
      calculate_intervention_urgency e = .ok u →
      u ≠ "low" := by
  intro e k u hk hkmem hu
  obtain ⟨f, c, g, d, hf, hc, hg, hd⟩ := identify_ok_toNum hk
  rw [identify_eq e hf hc hg hd] at hk
  injection hk with hk
  rw [urgency_eq e hf hc hg hd] at hu
  injection hu with hu
  subst hk
  subst hu
  exact spec_urgency_ne_low (spec_concern_distress hkmem)

/-- Witness for C10: frustration 8 identifies high_frustration, grades
high, and high is not low. -/
theorem C10_distress_not_low_witness : ("high" : String) ≠ "low" :=
  C10_distress_not_low ⟨some (.num 8), none, none, none, none, none⟩
    "high_frustration" "high" rfl (by decide) rfl

/-- C4: For every score mapping with arbitrary present or absent numeric
fields, `analyze_intervention_need` never fails and returns a well-formed
recommendation — the concern, urgency and intervention type are drawn
from their respective value sets — and every missing score field is
treated as the neutral value 5: the analysis of the mapping equals the
analysis of the mapping with all missing fields filled in with 5. -/
theorem C4_totality :
    ∀ (e : EmotionData), NumericData e →
      ∀ (lc : Option (Option LearningPhase)) (pick : Bool)
        (sample : List String → ℕ → List String),
      ∃ r, analyze_intervention_need e lc pick sample = .ok r ∧
        r.primary_concern ∈ ["high_frustration", "high_confusion",
          "low_engagement", "low_confidence", "optimal_state",
          "neutral_state"] ∧
        r.urgency_level ∈ ["critical", "high", "medium", "low"] ∧
        r.intervention_type ∈ [InterventionType.immediate, .adaptive,
          .supportive, .motivational, .cognitive] ∧
        analyze_intervention_need (fill5 e) lc pick sample = .ok r := by
  intro e hnum lc pick sample
  obtain ⟨h1, h2, h3, h4, _, _⟩ := hnum
  have hf := numeric_toNum h1 5
  have hc := numeric_toNum h2 5
  have hg := numeric_toNum h3 5
  have hd := numeric_toNum h4 5
  have hpc := identify_eq e hf hc hg hd
  have hu := urgency_eq e hf hc hg hd
  refine ⟨assemble e lc pick sample _ _,
    analyze_ok e lc pick sample hpc hu, ?_, ?_, ?_, ?_⟩
  · exact spec_concern_mem _ _ _ _
  · exact spec_urgency_mem _ _ _ _
  · exact interventionType_mem _
  · have hf' : (getV (fill5 e).frustration 5).toNum =
        some (readQ e.frustration 5) := hf
    have hc' : (getV (fill5 e).confusion 5).toNum =
        some (readQ e.confusion 5) := hc
    have hg' : (getV (fill5 e).engagement 5).toNum =
        some (readQ e.engagement 5) := hg
    have hd' : (getV (fill5 e).confidence 5).toNum =
        some (readQ e.confidence 5) := hd
    have hpc' := identify_eq (fill5 e) hf' hc' hg' hd'
    have hu' := urgency_eq (fill5 e) hf' hc' hg' hd'
    rw [analyze_ok (fill5 e) lc pick sample hpc' hu']
    rfl

/-- Witness for C4 at the empty mapping with no context. -/
theorem C4_totality_witness :
    ∃ r, analyze_intervention_need {} none true sampleTake = .ok r ∧
      r.primary_concern ∈ ["high_frustration", "high_confusion",
        "low_engagement", "low_confidence", "optimal_state",
        "neutral_state"] ∧
      r.urgency_level ∈ ["critical", "high", "medium", "low"] ∧
      r.intervention_type ∈ [InterventionType.immediate, .adaptive,
        .supportive, .motivational, .cognitive] ∧
      analyze_intervention_need (fill5 {}) none true sampleTake = .ok r :=
  C4_totality {} ⟨rfl, rfl, rfl, rfl, rfl, rfl⟩ none true sampleTake

/-- C7: Every recommendation returned by `analyze_intervention_need` is
internally consistent: its timing equals the timing-table row for its
own urgency_level, and its predicted_outcome equals the outcome
estimation for its own intervention_type. -/
theorem C7_internal_consistency :
    ∀ (e : EmotionData) (lc : Option (Option LearningPhase)) (pick : Bool)
      (sample : List String → ℕ → List String) (r : Recommendation),
      analyze_intervention_need e lc pick sample = .ok r →
      r.timing = timing_lookup r.urgency_level ∧
      r.predicted_outcome = outcome_for r.intervention_type := by
  intro e lc pick sample r h
  obtain ⟨pc, u, hpc, hu, rfl⟩ := analyze_ok_inv h
  exact ⟨rfl, rfl⟩

/-- Witness for C7 at the empty mapping. -/
theorem C7_internal_consistency_witness :
    (assemble {} none true sampleTake "neutral_state" "medium").timing =
        timing_lookup (assemble {} none true sampleTake "neutral_state"
          "medium").urgency_level ∧
      (assemble {} none true sampleTake "neutral_state"
          "medium").predicted_outcome =
        outcome_for (assemble {} none true sampleTake "neutral_state"
          "medium").intervention_type :=
  C7_internal_consistency {} none true sampleTake _ (by rfl)

/-- C5 counterexample: the claim states that expected_timeframe is the
constant "5–15 minutes" (with an en-dash); the code returns the constant
"5-15 minutes" (with a hyphen-minus), so the two strings differ. -/
theorem C5_counterexample :
    (predict_intervention_outcome {}
        ⟨.supportive, [], "", []⟩).expected_timeframe ≠ "5–15 minutes" := by
  decide

/-- C5 (amended): outcome estimation uses the fixed improvement factors
immediate 0.8, motivational 0.7, adaptive 0.6, cognitive 0.5,
supportive 0.4 (`spec_factor`; the lookup default 0.5 is unreachable
since the enum is closed and fully tabulated); likelihood_of_success is
the factor times 100 formatted as an integer percentage string,
expected_timeframe is the constant "5-15 minutes" (hyphen-minus), and
confidence_level is moderate exactly when the factor exceeds 0.5, low
otherwise; in particular supportive yields "40%" and "low". -/
theorem C5_outcome_estimation :
    (∀ t : InterventionType,
      (improvement_factors.lookup t).getD (5/10) = spec_factor t) ∧
    (∀ (e : EmotionData) (i : Interventions),
      predict_intervention_outcome e i =
        { likelihood_of_success := format_pct (spec_factor i.type * 100),
          expected_timeframe := "5-15 minutes",
          confidence_level :=
            if (5/10 : ℚ) < spec_factor i.type then "moderate"
            else "low" }) ∧
    (∀ (e : EmotionData) (i : Interventions), i.type = .supportive →
      (predict_intervention_outcome e i).likelihood_of_success = "40%" ∧
      (predict_intervention_outcome e i).confidence_level = "low") := by
  refine ⟨?_, ?_, ?_⟩
  · intro t
    cases t <;> rfl
  · intro e i
    obtain ⟨t, a, ex, si⟩ := i
    cases t <;> rfl
  · intro e i h
    obtain ⟨t, a, ex, si⟩ := i
    cases h
    refine ⟨?_, ?_⟩
    · show format_pct ((4 : ℚ)/10 * 100) = "40%"
      norm_num [format_pct]
      rfl
    · show (if (5/10 : ℚ) < (4/10 : ℚ) then "moderate" else "low") = "low"
      norm_num

/-- Witness for C5 at a concrete supportive intervention. -/
theorem C5_outcome_estimation_witness :
    (predict_intervention_outcome {}
        ⟨.supportive, [], "", []⟩).likelihood_of_success = "40%" ∧
      (predict_intervention_outcome {}
        ⟨.supportive, [], "", []⟩).confidence_level = "low" :=
  C5_outcome_estimation.2.2 {} ⟨.supportive, [], "", []⟩ rfl

/-- C6: Timing computation is the pure table lookup `timing_lookup`
applied to the urgency alone: the critical row is as stated, an urgency
outside the four ladder values falls back to the medium row, and calls
seeing the same urgency return identical results regardless of the rest
of the input. -/
theorem C6_timing :
    timing_lookup "critical" = ⟨"immediately", "5-10 minutes", "as needed"⟩ ∧
    (∀ u : String, u ∉ ["critical", "high", "medium", "low"] →
      timing_lookup u = timing_lookup "medium") ∧
    (∀ (e : EmotionData) (lc : Option (Option LearningPhase)) (u : String),
      calculate_intervention_urgency e = .ok u →
      calculate_intervention_timing e lc = .ok (timing_lookup u)) ∧
    (∀ (e e' : EmotionData) (lc lc' : Option (Option LearningPhase))
      (u : String),
      calculate_intervention_urgency e = .ok u →
      calculate_intervention_urgency e' = .ok u →
      calculate_intervention_timing e lc =
        calculate_intervention_timing e' lc') := by
  refine ⟨rfl, ?_, ?_, ?_⟩
  · intro u hu
    simp only [List.mem_cons, List.mem_singleton, List.not_mem_nil,
      or_false, not_or] at hu
    obtain ⟨n1, n2, n3, n4⟩ := hu
    have b1 : (u == "critical") = false := by simp [n1]
    have b2 : (u == "high") = false := by simp [n2]
    have b3 : (u == "medium") = false := by simp [n3]
    have b4 : (u == "low") = false := by simp [n4]
    simp [timing_lookup, timing_map, List.lookup, b1, b2, b3, b4]
  · intro e lc u h
    exact timing_of_urgency e lc h
  · intro e e' lc lc' u h h'
    rw [timing_of_urgency e lc h, timing_of_urgency e' lc' h']

/-- Witness for C6: the unmapped urgency value "urgent" falls back to the
medium row. -/
theorem C6_timing_witness :
    timing_lookup "urgent" = timing_lookup "medium" :=
  C6_timing.2.1 "urgent" (by decide)

/-- C9 counterexample: the claim states that every score mapping holding
a non-numeric value is rejected; but a string in the excitement field
(which the engine reads and then never compares) is silently accepted
and the analysis succeeds. -/
theorem C9_counterexample :
    (EmotionData.excitement
        ⟨none, none, none, none, some (.str "very engaged"), none⟩ =
      some (.str "very engaged")) ∧
    ∃ r, analyze_intervention_need
        ⟨none, none, none, none, some (.str "very engaged"), none⟩
        none true sampleTake = .ok r :=
  ⟨rfl,
    assemble ⟨none, none, none, none, some (.str "very engaged"), none⟩
      none true sampleTake "neutral_state" "medium",
    analyze_ok _ none true sampleTake rfl rfl⟩

/-- C9 (amended): a non-numeric string in a field the evaluation actually
compares is rejected, but with a TypeError raised from the comparison
deep inside concern identification, not a boundary "invalid score type"
check: in particular a string in the frustration field (which is always
compared first) makes `analyze_intervention_need` fail with TypeError;
strings in fields that are never compared (such as excitement) are
silently accepted, and boolean values are silently coerced to 0/1. -/
theorem C9_type_error :
    ∀ (e : EmotionData) (lc : Option (Option LearningPhase)) (pick : Bool)
      (sample : List String → ℕ → List String) (s : String),
      e.frustration = some (.str s) →
      analyze_intervention_need e lc pick sample = .error "TypeError" := by
  intro e lc pick sample s h
  have e1 : checkHigh e.frustration "high_frustration" =
      .error "TypeError" := by
    rw [h, checkHigh_eq]
    rfl
  have h2 : identify_primary_concern e = .error "TypeError" := by
    simp [identify_primary_concern, e1, Bind.bind, Except.bind]
  simp [analyze_intervention_need, h2, Bind.bind, Except.bind]

/-- Witness for C9 at a concrete mapping whose frustration is a string. -/
theorem C9_type_error_witness :
    analyze_intervention_need
        ⟨some (.str "angry"), none, none, none, none, none⟩
        none true sampleTake = .error "TypeError" :=
  C9_type_error ⟨some (.str "angry"), none, none, none, none, none⟩
    none true sampleTake "angry" rfl

/-- An association-list lookup fails exactly when the key is absent. -/
lemma lookup_none_iff {α β : Type} [BEq α] [LawfulBEq α]
    (ts : List (α × β)) (x : α) :
    ts.lookup x = none ↔ x ∉ ts.map Prod.fst := by
  induction ts with
  | nil => simp [List.lookup]
  | cons p ps ih =>
    obtain ⟨k, v⟩ := p
    by_cases h : x = k
    · simp [List.lookup, h]
    · have hb : (x == k) = false := by simp [h]
      simp only [List.lookup, hb, List.map_cons, List.mem_cons, not_or, ih]
      tauto

/-- The type resolved by `_generate_interventions` is the candidate when
the catalog entry offers it, and the first declared type otherwise. -/
lemma resolved_type_eq (ts : List (InterventionType × List String))
    (cand : InterventionType) :
    (match ts.lookup cand with
      | some acts => (cand, acts)
      | none =>
        match ts with
        | t :: _ => t
        | [] => (cand, ([] : List String))).1 =
      (if cand ∈ ts.map Prod.fst then cand
       else (ts.map Prod.fst).headD cand) := by
  rcases hl : ts.lookup cand with _ | acts
  · have hmem : cand ∉ ts.map Prod.fst := (lookup_none_iff ts cand).mp hl
    rw [if_neg hmem]
    cases ts with
    | nil => rfl
    | cons t ts' => simp
  · have hmem : cand ∈ ts.map Prod.fst := by
      by_contra hmem
      rw [(lookup_none_iff ts cand).mpr hmem] at hl
      exact Option.noConfusion hl
    rw [if_pos hmem]

/-- C3: Strategy selection returns the fixed passive recommendation when
the concern has no catalog entry (the pipeline concern without one is
exactly neutral_state); otherwise the intervention type is the
urgency-mapped candidate (critical → immediate; high → immediate or
adaptive by the random draw; medium → adaptive or supportive by the
random draw; low → supportive), replaced, when that candidate is absent
from the catalog entry, by the first type declared in it. -/
theorem C3_strategy_selection :
    intervention_strategies.lookup "neutral_state" = none ∧
    (∀ (concern urgency : String) (phase : LearningPhase) (pick : Bool)
      (sample : List String → ℕ → List String),
      intervention_strategies.lookup concern = none →
      generate_interventions concern urgency phase pick sample =
        { type := .supportive,
          actions := ["Continue monitoring student progress"],
          explanation := "No specific intervention needed at this time",
          success_indicators :=
            ["Maintained engagement", "Steady progress"] }) ∧
    (∀ (concern : String) (ts : List (InterventionType × List String))
      (urgency : String) (phase : LearningPhase) (pick : Bool)
      (sample : List String → ℕ → List String),
      intervention_strategies.lookup concern = some ts →
      urgency ∈ ["critical", "high", "medium", "low"] →
      (generate_interventions concern urgency phase pick sample).type =
        (if spec_candidate urgency pick ∈ ts.map Prod.fst
         then spec_candidate urgency pick
         else (ts.map Prod.fst).headD (spec_candidate urgency pick))) := by
  refine ⟨rfl, ?_, ?_⟩
  · intro concern urgency phase pick sample h
    simp [generate_interventions, h]
  · intro concern ts urgency phase pick sample hts _
    simp only [generate_interventions, hts]
    exact resolved_type_eq ts (spec_candidate urgency pick)

/-- Witness for C3: the concern neutral_state has no catalog entry and
yields the fixed passive recommendation. -/
theorem C3_strategy_selection_witness :
    generate_interventions "neutral_state" "low" .practice true
        sampleTake =
      { type := .supportive,
        actions := ["Continue monitoring student progress"],
        explanation := "No specific intervention needed at this time",
        success_indicators := ["Maintained engagement", "Steady progress"] } :=
  C3_strategy_selection.2.1 "neutral_state" "low" .practice true
    sampleTake rfl

end EmoRadar
